import Mathlib

/-!
Verification of the link-tracking capture service.

The embedding models the TypeScript services of this repository:
`generateLink` / `validateLink` (link service) and `capturePhoto` /
`getDeviceInfo` / `getLocation` / `trackAccess` (tracking service).
Platform effects (geolocation, camera, reverse-geocoding HTTP call,
persistent-store writes) are modelled as explicit environment values
fed into otherwise pure functions; each function is translated
clause-for-clause from the source.
-/

namespace Tracking

/-- A JavaScript exception value as observed by a `catch` clause:
whether it is an `instanceof Error`, its `name` property and its
(optional) numeric `code` property.  `GeolocationPositionError` has a
`code` but is NOT an instance of `Error`; a `DOMException` (such as
`NotAllowedError` from `getUserMedia`) IS an instance of `Error` in
the modern web platform. -/
structure JSErrorVal where
  isError : Bool
  name : String
  code : Option Nat
deriving DecidableEq, Repr

/-- JavaScript truthiness of an optional string: `undefined` and the
empty string are falsy, every other string is truthy. -/
def jsTruthyStr : Option String → Bool
  | none => false
  | some s => s ≠ ""

/-- JavaScript `a || b` on optional strings (`undefined` and `""` are
falsy, so they fall through to `b`). -/
def jsOrStr (a b : Option String) : Option String :=
  if jsTruthyStr a then a else b

/-- The `location` object of a tracking record: raw coordinates plus
best-effort reverse-geocoding enrichment. -/
structure LocationData where
  latitude : ℚ
  longitude : ℚ
  country : Option String
  countryCode : Option String
  city : Option String
deriving DecidableEq, Repr

/-- Result type of `getLocation` (`{ location?, error? }`). -/
structure LocResult where
  location : Option LocationData
  error : Option String
deriving DecidableEq, Repr

/-- Outcome of the platform geolocation request
(`navigator.geolocation.getCurrentPosition`): either a position with
coordinates, or a rejection value caught by the `catch` clause. -/
inductive GeoPositionOutcome where
  | success (latitude longitude : ℚ)
  | failure (e : JSErrorVal)
deriving DecidableEq, Repr

/-- The `address` object of a reverse-geocoding JSON response; each
field may be absent. -/
structure Address where
  country : Option String
  country_code : Option String
  city : Option String
  town : Option String
deriving DecidableEq, Repr

/-- Outcome of the reverse-geocoding step (`fetch` + `response.json()`):
a parsed body whose `address` field may be absent, or a thrown error
(network failure, non-JSON body). -/
inductive GeocodeOutcome where
  | success (address : Option Address)
  | failure
deriving DecidableEq, Repr

/-- The error message chosen by `getLocation`'s catch clause:
`error instanceof Error && error.code === 1` selects the denial
message, anything else the generic one. -/
def locationErrorMessage (e : JSErrorVal) : String :=
  if e.isError ∧ e.code = some 1 then "Location access denied by user"
  else "Location not available or access denied"

/-- `getLocation` from the tracking service: acquire coordinates; on
failure classify via `locationErrorMessage`; on success attempt
reverse geocoding, falling back to the bare coordinates if the lookup
throws, and otherwise merging `country`, upper-cased `country_code`
and `city || town` from the response. -/
def getLocation (geo : GeoPositionOutcome) (gc : GeocodeOutcome) : LocResult :=
  match geo with
  | .failure e => { location := none, error := some (locationErrorMessage e) }
  | .success lat lon =>
    match gc with
    | .failure =>
      { location := some ⟨lat, lon, none, none, none⟩, error := none }
    | .success addr =>
      { location := some
          ⟨lat, lon,
           addr.bind Address.country,
           (addr.bind Address.country_code).map String.toUpper,
           jsOrStr (addr.bind Address.city) (addr.bind Address.town)⟩,
        error := none }

/-- Result type of `capturePhoto` (`{ photo?, error? }`). -/
structure PhotoResult where
  photo : Option String
  error : Option String
deriving DecidableEq, Repr

/-- Outcome of the platform media request (`getUserMedia({video:true})`)
together with the playback environment reached once `onloadedmetadata`
fires: the video's native dimensions, whether the 2d canvas context is
available, and the JPEG data-URL the canvas encoder produces for the
drawn frame. -/
inductive CameraOutcome where
  | granted (videoWidth videoHeight : ℕ) (ctxAvailable : Bool) (encoded : String)
  | denied (e : JSErrorVal)
deriving DecidableEq, Repr

/-- The error message chosen by `capturePhoto`'s catch clause:
`error instanceof Error && error.name === 'NotAllowedError'` selects
the denial message, anything else the generic one. -/
def cameraErrorMessage (e : JSErrorVal) : String :=
  if e.isError ∧ e.name = "NotAllowedError" then "Camera access denied by user"
  else "Camera not available or access denied"

/-- `capturePhoto` from the tracking service.  The second component
records whether `stream.getTracks().forEach(track => track.stop())`
ran before the promise resolved (`none` when no stream was ever
acquired).  In the source, tracks are stopped only on the branch where
the canvas context is available; the `else` branch resolves with
"Could not get canvas context" without stopping them. -/
def capturePhoto (cam : CameraOutcome) : PhotoResult × Option Bool :=
  match cam with
  | .granted _ _ ctxAvailable encoded =>
    if ctxAvailable then
      ({ photo := some encoded, error := none }, some true)
    else
      ({ photo := none, error := some "Could not get canvas context" }, some false)
  | .denied e =>
    ({ photo := none, error := some (cameraErrorMessage e) }, none)

/-- The device fingerprint record. -/
structure DeviceInfo where
  type : String
  os : String
  browser : String
  screenResolution : String
deriving DecidableEq, Repr

/-- Environment read by `getDeviceInfo`: the user-agent string and the
screen dimensions, or a thrown introspection error. -/
inductive DeviceEnv where
  | success (userAgent : String) (width height : ℕ)
  | failure
deriving DecidableEq, Repr

/-- Leftmost-first match of an alternation of literal tokens, as a JS
regex `/t1|t2|.../.exec(s)` computes it: scan positions left to right
and at each position try the alternatives in order. -/
def execAlt (toks : List String) : List Char → Option String
  | [] => toks.find? (fun t => t.data.isPrefixOf ([] : List Char))
  | c :: rest =>
    match toks.find? (fun t => t.data.isPrefixOf (c :: rest)) with
    | some t => some t
    | none => execAlt toks rest

/-- `exec(ua)?.[0] || 'Unknown'` (JS `||`, so an empty match would also
fall back). -/
def matchOrUnknown (toks : List String) (s : String) : String :=
  match jsOrStr (execAlt toks s.data) (some "Unknown") with
  | some r => r
  | none => "Unknown"

/-- `getDeviceInfo` from the tracking service: classify mobile vs
desktop by testing the user agent against mobile tokens, take the
first OS and browser token matches, and format the screen resolution;
on any introspection error return the all-"Unknown" record. -/
def getDeviceInfo (env : DeviceEnv) : DeviceInfo :=
  match env with
  | .success ua w h =>
    { type := if (execAlt ["Mobile", "Tablet", "iPad", "iPhone", "Android"] ua.data).isSome
              then "Mobile" else "Desktop"
      os := matchOrUnknown ["Windows", "Mac", "Linux", "Android", "iOS"] ua
      browser := matchOrUnknown ["Chrome", "Firefox", "Safari", "Edge"] ua
      screenResolution := toString w ++ "x" ++ toString h }
  | .failure =>
    { type := "Unknown", os := "Unknown", browser := "Unknown"
      screenResolution := "Unknown" }

/-- The per-step error map of a tracking record. -/
structure TrackingErrors where
  location : Option String
  photo : Option String
  save : Option String
deriving DecidableEq, Repr

/-- The `TrackingData` record produced by `trackAccess`. -/
structure TrackingData where
  timestamp : ℕ
  ip : Option String
  location : Option LocationData
  device : Option DeviceInfo
  photo : Option String
  errors : TrackingErrors
deriving DecidableEq, Repr

/-- The whole environment of one `trackAccess` run: the clock reading,
the device-introspection environment, the two location-step outcomes,
the camera outcome, and whether the persistent-store write succeeds. -/
structure TrackEnv where
  timestamp : ℕ
  deviceEnv : DeviceEnv
  geo : GeoPositionOutcome
  geocode : GeocodeOutcome
  camera : CameraOutcome
  saveOk : Bool
deriving DecidableEq, Repr

/-- `trackAccess` from the tracking service: build the record with
timestamp, device info and an empty error map; run `getLocation` and
merge (`if (locationResult.location) ... else if (locationResult.error)`,
JS truthiness); run `capturePhoto` and merge likewise; attempt the
store write, annotating `errors.save` on failure without discarding
the record. -/
def trackAccess (env : TrackEnv) : TrackingData :=
  let init : TrackingData :=
    { timestamp := env.timestamp, ip := none, location := none
      device := some (getDeviceInfo env.deviceEnv), photo := none
      errors := ⟨none, none, none⟩ }
  let locationResult := getLocation env.geo env.geocode
  let d1 :=
    if locationResult.location.isSome then
      { init with location := locationResult.location }
    else if jsTruthyStr locationResult.error then
      { init with errors := { init.errors with location := locationResult.error } }
    else init
  let photoResult := (capturePhoto env.camera).1
  let d2 :=
    if jsTruthyStr photoResult.photo then
      { d1 with photo := photoResult.photo }
    else if jsTruthyStr photoResult.error then
      { d1 with errors := { d1.errors with photo := photoResult.error } }
    else d1
  if env.saveOk then d2
  else { d2 with errors := { d2.errors with save := some "Failed to save tracking data" } }

/-- Observable events of one `trackAccess` run, in the order the
awaited steps of the source complete. -/
inductive Event where
  | deviceDone
  | locationStart
  | locationResolved
  | locationMerged
  | photoStart
  | photoResolved
  | photoMerged
  | saveStart
  | saveSucceeded
  | saveFailed
deriving DecidableEq, Repr

/-- `trackAccess` instrumented with its event trace.  The source is a
single `async` function whose steps are chained with `await`:
`getLocation` is awaited and its result merged before `capturePhoto`
is invoked, and the store write happens last.  The trace records the
completion of each suspension point in that chain. -/
def trackAccessRun (env : TrackEnv) : TrackingData × List Event :=
  let init : TrackingData :=
    { timestamp := env.timestamp, ip := none, location := none
      device := some (getDeviceInfo env.deviceEnv), photo := none
      errors := ⟨none, none, none⟩ }
  let t0 : List Event := [.deviceDone, .locationStart]
  let locationResult := getLocation env.geo env.geocode
  let t1 := t0 ++ [.locationResolved]
  let d1 :=
    if locationResult.location.isSome then
      { init with location := locationResult.location }
    else if jsTruthyStr locationResult.error then
      { init with errors := { init.errors with location := locationResult.error } }
    else init
  let t2 := t1 ++ [.locationMerged, .photoStart]
  let photoResult := (capturePhoto env.camera).1
  let t3 := t2 ++ [.photoResolved]
  let d2 :=
    if jsTruthyStr photoResult.photo then
      { d1 with photo := photoResult.photo }
    else if jsTruthyStr photoResult.error then
      { d1 with errors := { d1.errors with photo := photoResult.error } }
    else d1
  let t4 := t3 ++ [.photoMerged, .saveStart]
  if env.saveOk then (d2, t4 ++ [.saveSucceeded])
  else ({ d2 with errors := { d2.errors with save := some "Failed to save tracking data" } },
        t4 ++ [.saveFailed])

/-- Platform invariant on the camera environment: `canvas.toDataURL`
never returns the empty string (it returns a data URL, `"data:,"` for
a zero-area canvas), so the encoded frame is a nonempty string
whenever a stream was granted. -/
def encodedNonempty : CameraOutcome → Bool
  | .granted _ _ _ encoded => encoded ≠ ""
  | .denied _ => true

end Tracking

namespace LinkService

/-- The `LinkData` record written under `links/<linkId>`. -/
structure LinkData where
  userId : String
  createdAt : ℕ
  url : String
deriving DecidableEq, Repr

/-- The value `generateLink` throws: either the fresh
`Error('User must be authenticated to generate links')`, or the store
write's own rejection, rethrown. -/
inductive GenError where
  | authRequired
  | storeFailure (msg : String)
deriving DecidableEq, Repr

/-- The `message` property of a `GenError`. -/
def GenError.message : GenError → String
  | .authRequired => "User must be authenticated to generate links"
  | .storeFailure msg => msg

/-- `generateLink` from the link service, over an explicit environment:
`origin` (`window.location.origin`), `uniqueId` (the generated UUID),
`now` (`Date.now()`), and the store write's outcome.  Returns the
result (`url` or thrown error) together with the list of attempted
store writes.  An empty `userId` is the only falsy string, so
`if (!userId) throw ...` fires exactly then, before any write. -/
def generateLink (origin uniqueId : String) (now : ℕ)
    (setOutcome : Except String Unit) (userId : String) :
    Except GenError String × List (String × LinkData) :=
  if userId = "" then (.error .authRequired, [])
  else
    let linkId := uniqueId ++ "_" ++ userId
    let linkData : LinkData := ⟨userId, now, origin ++ "/track/" ++ linkId⟩
    let writes := [("links/" ++ linkId, linkData)]
    match setOutcome with
    | .ok _ => (.ok linkData.url, writes)
    | .error msg => (.error (.storeFailure msg), writes)

/-- The opaque `Unsubscribe` handle returned by the store's `onValue`
subscription. -/
structure Unsubscribe where
  id : ℕ
deriving DecidableEq, Repr

/-- The store's `onValue`: registers a listener (whose return value is
discarded) and returns an `Unsubscribe` handle.  The handle does not
depend on the data at the path; `exists` snapshots only flow into the
listener. -/
def onValue (_store : String → Bool) (_path : String) (_listener : Bool → Bool) :
    Unsubscribe :=
  ⟨0⟩

/-- What `validateLink` resolves to: `await`ing the non-promise
`Unsubscribe` handle yields the handle itself; the `catch` clause
yields the boolean `false`. -/
inductive ValidateResult where
  | handle (u : Unsubscribe)
  | boolVal (b : Bool)
deriving DecidableEq, Repr

/-- `validateLink` from the link service, over a store modelled as the
existence predicate its snapshots report and a flag for whether the
read/subscription itself throws.  The source awaits `onValue(linkRef,
cb)` — which returns the unsubscribe function, not the callback's
`snapshot.exists()` — and returns that value; only the catch clause
produces `false`. -/
def validateLink (store : String → Bool) (readThrows : Bool) (linkId : String) :
    ValidateResult :=
  if readThrows then .boolVal false
  else .handle (onValue store ("links/" ++ linkId) (fun ex => ex))

end LinkService

namespace Tracking

theorem locationErrorMessage_ne_empty (e : JSErrorVal) : locationErrorMessage e ≠ "" := by
  unfold locationErrorMessage
  split <;> decide

theorem cameraErrorMessage_ne_empty (e : JSErrorVal) : cameraErrorMessage e ≠ "" := by
  unfold cameraErrorMessage
  split <;> decide

/-- C3: whenever coordinate acquisition succeeds but the
reverse-geocoding call fails or errors, `getLocation` returns a
success carrying exactly the raw latitude and longitude, with
`country`, `countryCode` and `city` absent and no error set. -/
theorem getLocation_geocode_failure (lat lon : ℚ) :
    getLocation (.success lat lon) .failure =
      { location := some ⟨lat, lon, none, none, none⟩, error := none } := rfl

/-- C5: the denial classification is unreachable for real platform
failures.  A `GeolocationPositionError` with `code = 1` (explicit user
denial) is not an `instanceof Error`, so the guard
`error instanceof Error && error.code === 1` fails and `getLocation`
returns the generic message instead of "Location access denied by
user" as the specification requires. -/
theorem getLocation_denial_misclassified :
    getLocation (.failure ⟨false, "GeolocationPositionError", some 1⟩) .failure =
      { location := none, error := some "Location not available or access denied" } := rfl

/-- C4: the path of `capturePhoto` that reaches playback but cannot
acquire the 2d canvas context resolves with "Could not get canvas
context" WITHOUT stopping the media tracks — the camera stream leaks,
contrary to the specification's resource-discipline requirement. -/
theorem capturePhoto_ctx_unavailable_leaks :
    capturePhoto (.granted 640 480 false "data:image/jpeg;base64,AAAA") =
      ({ photo := none, error := some "Could not get canvas context" }, some false) := rfl

/-- C8: `trackAccess` executes its steps strictly sequentially: the
instrumented run produces the same record as `trackAccess` and a trace
in which the location step is resolved and merged (indices 2, 3)
strictly before the photo step starts (index 4), with device capture
first and the save attempt last. -/
theorem trackAccess_sequential (env : TrackEnv) :
    (trackAccessRun env).1 = trackAccess env ∧
    ∃ t : Event, (trackAccessRun env).2 =
      [.deviceDone, .locationStart, .locationResolved, .locationMerged,
       .photoStart, .photoResolved, .photoMerged, .saveStart, t] := by
  cases h : env.saveOk <;>
    simp [trackAccessRun, trackAccess, h]

end Tracking

namespace Tracking

/-- C1: after `trackAccess` completes, for each of the `location` and
`photo` fields exactly one of {field present, corresponding `errors`
entry present} holds — never both, never neither.  The hypothesis is
the platform invariant that `canvas.toDataURL` never yields the empty
string. -/
theorem trackAccess_exactly_one (env : TrackEnv)
    (henc : encodedNonempty env.camera = true) :
    ((trackAccess env).location.isSome ↔ (trackAccess env).errors.location = none) ∧
    ((trackAccess env).photo.isSome ↔ (trackAccess env).errors.photo = none) := by
  obtain ⟨ts, denv, geo, gc, cam, so⟩ := env
  cases geo <;> cases gc <;>
    rcases cam with ⟨w, h, ctx, enc⟩ | e <;> (try cases ctx) <;> cases so <;>
    simp_all [trackAccess, getLocation, capturePhoto, jsTruthyStr, encodedNonempty,
      locationErrorMessage_ne_empty, cameraErrorMessage_ne_empty]

theorem trackAccess_exactly_one_witness :
    encodedNonempty (CameraOutcome.denied ⟨true, "NotAllowedError", none⟩) = true ∧
    (((trackAccess ⟨0, .failure, .failure ⟨false, "E", some 1⟩, .failure,
        .denied ⟨true, "NotAllowedError", none⟩, true⟩).location.isSome ↔
      (trackAccess ⟨0, .failure, .failure ⟨false, "E", some 1⟩, .failure,
        .denied ⟨true, "NotAllowedError", none⟩, true⟩).errors.location = none) ∧
     ((trackAccess ⟨0, .failure, .failure ⟨false, "E", some 1⟩, .failure,
        .denied ⟨true, "NotAllowedError", none⟩, true⟩).photo.isSome ↔
      (trackAccess ⟨0, .failure, .failure ⟨false, "E", some 1⟩, .failure,
        .denied ⟨true, "NotAllowedError", none⟩, true⟩).errors.photo = none)) :=
  ⟨by decide,
   trackAccess_exactly_one
     ⟨0, .failure, .failure ⟨false, "E", some 1⟩, .failure,
      .denied ⟨true, "NotAllowedError", none⟩, true⟩ (by decide)⟩

end Tracking

namespace Tracking

/-- C2: `trackAccess` is total — it returns a `TrackingData` for every
outcome of the three acquisition steps and the persistence step — and
on persistence failure it sets `errors.save` while keeping the
already-collected location, photo, device data and the per-step error
annotations exactly as on the successful-save run. -/
theorem trackAccess_save_failure (env : TrackEnv) (h : env.saveOk = false) :
    (trackAccess env).errors.save = some "Failed to save tracking data" ∧
    (trackAccess env).location = (trackAccess { env with saveOk := true }).location ∧
    (trackAccess env).photo = (trackAccess { env with saveOk := true }).photo ∧
    (trackAccess env).device = (trackAccess { env with saveOk := true }).device ∧
    (trackAccess env).timestamp = (trackAccess { env with saveOk := true }).timestamp ∧
    (trackAccess env).errors.location =
      (trackAccess { env with saveOk := true }).errors.location ∧
    (trackAccess env).errors.photo =
      (trackAccess { env with saveOk := true }).errors.photo ∧
    (trackAccess { env with saveOk := true }).errors.save = none := by
  obtain ⟨ts, denv, geo, gc, cam, so⟩ := env
  simp only at h
  subst h
  cases geo <;> cases gc <;>
    rcases cam with ⟨w, hh, ctx, enc⟩ | e <;> (try cases ctx) <;>
    simp [trackAccess, getLocation, capturePhoto, jsTruthyStr,
      locationErrorMessage_ne_empty, cameraErrorMessage_ne_empty] <;>
    split <;> rfl

theorem trackAccess_save_failure_witness :
    (trackAccess ⟨5, .failure, .success 10 20, .failure,
        .granted 640 480 true "data:image/jpeg;base64,AAAA", false⟩).errors.save =
      some "Failed to save tracking data" :=
  (trackAccess_save_failure
    ⟨5, .failure, .success 10 20, .failure,
     .granted 640 480 true "data:image/jpeg;base64,AAAA", false⟩ rfl).1

/-- C6: on every camera-access failure `e`, `capturePhoto` classifies
it — an `Error` instance named `NotAllowedError` (the platform's
explicit-denial `DOMException`) yields "Camera access denied by user",
anything else the generic message — and after orchestration the record
carries no photo and exactly that message in `errors.photo`. -/
theorem trackAccess_camera_denied (env : TrackEnv) (e : JSErrorVal)
    (h : env.camera = .denied e) :
    (trackAccess env).photo = none ∧
    (trackAccess env).errors.photo = some (cameraErrorMessage e) ∧
    (e.isError = true → e.name = "NotAllowedError" →
      cameraErrorMessage e = "Camera access denied by user") ∧
    (¬(e.isError = true ∧ e.name = "NotAllowedError") →
      cameraErrorMessage e = "Camera not available or access denied") := by
  obtain ⟨ts, denv, geo, gc, cam, so⟩ := env
  simp only at h
  subst h
  refine ⟨?_, ?_, ?_, ?_⟩
  · cases geo <;> cases gc <;> cases so <;>
      simp_all [trackAccess, getLocation, capturePhoto, jsTruthyStr,
        locationErrorMessage_ne_empty, cameraErrorMessage_ne_empty]
  · cases geo <;> cases gc <;> cases so <;>
      simp_all [trackAccess, getLocation, capturePhoto, jsTruthyStr,
        locationErrorMessage_ne_empty, cameraErrorMessage_ne_empty]
  · intro h1 h2
    simp [cameraErrorMessage, h1, h2]
  · intro hn
    simp [cameraErrorMessage, hn]

theorem trackAccess_camera_denied_witness :
    (trackAccess ⟨0, .failure, .success 10 20, .failure,
        .denied ⟨true, "NotAllowedError", none⟩, true⟩).photo = none ∧
    (trackAccess ⟨0, .failure, .success 10 20, .failure,
        .denied ⟨true, "NotAllowedError", none⟩, true⟩).errors.photo =
      some (cameraErrorMessage ⟨true, "NotAllowedError", none⟩) ∧
    cameraErrorMessage ⟨true, "NotAllowedError", none⟩ = "Camera access denied by user" :=
  let th := trackAccess_camera_denied
    ⟨0, .failure, .success 10 20, .failure, .denied ⟨true, "NotAllowedError", none⟩, true⟩
    ⟨true, "NotAllowedError", none⟩ rfl
  ⟨th.1, th.2.1, th.2.2.1 rfl rfl⟩

/-- C7: device information is total and never absent — every
`trackAccess` record carries `some` device record, and whenever
environment introspection fails all four sub-fields equal
"Unknown". -/
theorem getDeviceInfo_total (env : TrackEnv) :
    (trackAccess env).device = some (getDeviceInfo env.deviceEnv) ∧
    (env.deviceEnv = .failure →
      getDeviceInfo env.deviceEnv =
        ⟨"Unknown", "Unknown", "Unknown", "Unknown"⟩) := by
  constructor
  · obtain ⟨ts, denv, geo, gc, cam, so⟩ := env
    cases geo <;> cases gc <;>
      rcases cam with ⟨w, hh, ctx, enc⟩ | e <;> (try cases ctx) <;> cases so <;>
      simp [trackAccess, getLocation, capturePhoto, jsTruthyStr,
        locationErrorMessage_ne_empty, cameraErrorMessage_ne_empty] <;>
      split <;> rfl
  · intro h
    rw [h]
    rfl

theorem getDeviceInfo_total_witness :
    (trackAccess ⟨0, .failure, .failure ⟨false, "E", none⟩, .failure,
        .denied ⟨false, "AbortError", none⟩, true⟩).device =
      some (getDeviceInfo .failure) ∧
    getDeviceInfo .failure = ⟨"Unknown", "Unknown", "Unknown", "Unknown"⟩ :=
  let th := getDeviceInfo_total
    ⟨0, .failure, .failure ⟨false, "E", none⟩, .failure,
     .denied ⟨false, "AbortError", none⟩, true⟩
  ⟨th.1, th.2 rfl⟩

end Tracking

namespace LinkService

/-- C9: what `validateLink` resolves to does not depend on whether the
link exists in the store — two runs against arbitrary stores agree —
because `await onValue(...)` yields the subscription handle, not the
listener's `snapshot.exists()`; the boolean `false` arises exactly
when the store read itself throws. -/
theorem validateLink_ignores_store (s1 s2 : String → Bool) (readThrows : Bool)
    (linkId : String) :
    validateLink s1 readThrows linkId = validateLink s2 readThrows linkId ∧
    validateLink s1 false linkId = .handle ⟨0⟩ ∧
    validateLink s1 true linkId = .boolVal false := by
  cases readThrows <;> simp [validateLink, onValue]

/-- C10: `generateLink` throws "User must be authenticated to generate
links" exactly when `userId` is the empty string, performing no store
write in that case; for every non-empty `userId` whose write succeeds
it returns `<origin>/track/<uuid>_<userId>`. -/
theorem generateLink_spec (origin uniqueId : String) (now : ℕ)
    (setOutcome : Except String Unit) (userId : String) :
    ((generateLink origin uniqueId now setOutcome userId).1 = .error .authRequired ↔
      userId = "") ∧
    (userId = "" → (generateLink origin uniqueId now setOutcome userId).2 = []) ∧
    (userId ≠ "" → setOutcome = .ok () →
      (generateLink origin uniqueId now setOutcome userId).1 =
        .ok (origin ++ "/track/" ++ uniqueId ++ "_" ++ userId)) ∧
    GenError.message .authRequired = "User must be authenticated to generate links" := by
  refine ⟨?_, ?_, ?_, rfl⟩
  · constructor
    · intro h
      by_contra hne
      simp only [generateLink, if_neg hne] at h
      cases setOutcome <;> simp_all
    · intro h
      simp [generateLink, h]
  · intro h
    simp [generateLink, h]
  · intro hne hok
    subst hok
    simp [generateLink, hne, String.append_assoc]

theorem generateLink_spec_witness :
    (generateLink "https://x.test" "u1" 0 (.ok ()) "alice").1 =
      .ok ("https://x.test" ++ "/track/" ++ "u1" ++ "_" ++ "alice") :=
  (generateLink_spec "https://x.test" "u1" 0 (.ok ()) "alice").2.2.1 (by decide) rfl

end LinkService
